import Mathlib

/-!
Verification development for the stock-bottom-alert repository.

The definitions below are a shallow embedding of the core logic of
`monitor.py` and `line_push.py`:

* prices and zone bounds are modelled as rationals (the Python code uses
  floats; the properties at stake are order/arithmetic properties that do
  not depend on rounding);
* calendar dates are modelled as integers (day numbers), day keys as
  strings;
* `None` becomes `Option`, raised exceptions become `Except`;
* the network push and the file write are modelled by their observable
  outcomes (success or raised error), parametrised where the environment
  decides the outcome.
-/

namespace StockAlert

/-! ## Zone classifier (`monitor.py`, `classify`) -/

/-- Model of `classify` from `monitor.py`: `"—"` for an absent price, `"IN_ZONE"` for
`low ≤ price ≤ high`, `"NEAR"` when outside the zone but within `near_pct`
percent of the violated boundary, `"—"` otherwise. -/
def classify (price : Option ℚ) (low high near_pct : ℚ) : String :=
  match price with
  | none => "—"
  | some p =>
    if low ≤ p ∧ p ≤ high then "IN_ZONE"
    else if p > high ∧ p ≤ high * (1 + near_pct / 100) then "NEAR"
    else if p < low ∧ p ≥ low * (1 - near_pct / 100) then "NEAR"
    else "—"

/-! ## Change calculator (`monitor.py`, `pct_change`) -/

/-- Model of `pct_change` from `monitor.py`: absent when either input is absent or the
reference is zero, otherwise `(current / past - 1) * 100`. -/
def pct_change (current past : Option ℚ) : Option ℚ :=
  match current, past with
  | some c, some p => if p = 0 then none else some ((c / p - 1) * 100)
  | _, _ => none

/-! ## Reference close lookup (`monitor.py`, `closest_close_before`) -/

/-- Model of `closest_close_before` from `monitor.py`, with the implicit "today"
(`dt.datetime.now(JST).date()`) made an explicit parameter.  The close
series is a list of (date, close) pairs; dates are integer day numbers.
The target is `today - days_ago`; among the dates `≤` target the maximal
one is selected (Python's `max(candidates)`) and its close returned. -/
def closest_close_before (today : ℤ) (closes : List (ℤ × ℚ)) (days_ago : ℤ) :
    Option ℚ :=
  if closes.isEmpty then none
  else
    let target := today - days_ago
    match ((closes.map Prod.fst).filter (fun d => decide (d ≤ target))) with
    | [] => none
    | c :: cs =>
      let d := cs.foldl max c
      (closes.find? (fun p => p.1 == d)).map Prod.snd

/-! ## Alert state and the notification decision (`monitor.py`, `main`) -/

/-- One persisted hit record: the `{"Ticker": ..., "Status": ...}` dict that
`main` stores in `state["last_sent_hits"]`. -/
structure Hit where
  ticker : String
  status : String
deriving DecidableEq, Repr

/-- The in-memory alert state: the two keys `main` reads and writes on the
state dict (`last_sent_day`, `last_sent_hits`). -/
structure AlertState where
  last_sent_day : Option String
  last_sent_hits : List Hit
deriving DecidableEq, Repr

/-- Model of `last_hits` in `main`: the set of tickers recorded from the last send,
dropping falsy (empty) tickers, as in
`{h.get("Ticker") for h in state.get("last_sent_hits", []) if h.get("Ticker")}`. -/
def lastHitTickers (s : AlertState) : Finset String :=
  ((s.last_sent_hits.map Hit.ticker).filter (fun t => !t.isEmpty)).toFinset

/-- Model of `current_hits` in `main`: `set(hits["Ticker"].tolist())`. -/
def currentHitTickers (hits : List Hit) : Finset String :=
  (hits.map Hit.ticker).toFinset

/-- The decision cascade of `main` (lines 258-271): empty hit frame, the
daily cap, then the identical-hit-set check; `true` means a notification is
attempted. -/
def should_notify (hits : List Hit) (state : AlertState) (today : String) :
    Bool :=
  if hits.isEmpty then false
  else if state.last_sent_day = some today then false
  else if currentHitTickers hits ≠ ∅ ∧ currentHitTickers hits = lastHitTickers state
    then false
  else true

/-- The state update of `main` (lines 277-278): `last_sent_day = today` and
`last_sent_hits = hits[["Ticker", "Status"]]`. -/
def record_sent (state : AlertState) (today : String) (hits : List Hit) :
    AlertState :=
  { state with last_sent_day := some today, last_sent_hits := hits }

/-- One run of the alert tail of `main` with all collaborators succeeding:
returns whether a notification was sent and the resulting state. -/
def runAlert (hits : List Hit) (state : AlertState) (today : String) :
    Bool × AlertState :=
  if should_notify hits state today then (true, record_sent state today hits)
  else (false, state)

/-- Number of notifications sent over a sequence of runs on one local day,
each run seeing the state the previous run left behind. -/
def countSends (today : String) : AlertState → List (List Hit) → ℕ
  | _, [] => 0
  | state, hs :: rest =>
    (if (runAlert hs state today).1 then 1 else 0) +
      countSends today (runAlert hs state today).2 rest

/-! ## Failing collaborators (`line_push.py`; `save_state`) -/

/-- Python truthiness test `not s` on `os.getenv` results: unset (`None`) or
the empty string. -/
def falsy (s : Option String) : Bool :=
  match s with
  | none => true
  | some t => t.isEmpty

/-- Model of `push_message` from `line_push.py`: raises on a missing
`LINE_CHANNEL_ACCESS_TOKEN`, then on a missing `LINE_TO_ID`, then performs
the HTTP POST, whose `raise_for_status` outcome the environment decides
(`httpOk`). -/
def push_message (token to_id : Option String) (httpOk : Bool) :
    Except String Unit :=
  if falsy token then Except.error "Missing env: LINE_CHANNEL_ACCESS_TOKEN"
  else if falsy to_id then Except.error "Missing env: LINE_TO_ID"
  else if httpOk then Except.ok () else Except.error "HTTPError"

/-- POSIX `os.path.dirname` on a character list: everything up to the last
slash, with trailing slashes stripped unless the head is all slashes. -/
def dirnameChars (cs : List Char) : List Char :=
  let head := ((cs.reverse.dropWhile (fun c => c ≠ '/'))).reverse
  if head ≠ [] ∧ head.any (fun c => c ≠ '/') then
    (head.reverse.dropWhile (fun c => c = '/')).reverse
  else head

/-- Model of `os.path.dirname` on strings. -/
def osDirname (p : String) : String :=
  String.mk (dirnameChars p.data)

/-- Model of `save_state` from `monitor.py`: `os.makedirs(os.path.dirname(path),
exist_ok=True)` raises `FileNotFoundError` when the dirname is empty (a bare
filename); otherwise the directory is created and the JSON dump written.
The successful write is represented by returning the state that is now on
disk. -/
def save_state (path : String) (state : AlertState) : Except String AlertState :=
  if osDirname path = "" then Except.error "FileNotFoundError"
  else Except.ok state

/-- The alert tail of `main` (lines 258-281) with fallible collaborators:
the decision cascade, then `push_message` (whose outcome `pushResult`
abstracts), then `save_state`-style persistence (`save`).  An `Except.error`
models the exception propagating out of `main`. -/
def mainTail (pushResult : Except String Unit)
    (save : AlertState → Except String AlertState)
    (hits : List Hit) (state : AlertState) (today : String) :
    Except String (Bool × AlertState) :=
  if should_notify hits state today then
    match pushResult with
    | Except.error e => Except.error e
    | Except.ok _ =>
      match save (record_sent state today hits) with
      | Except.error e => Except.error e
      | Except.ok s => Except.ok (true, s)
  else Except.ok (false, state)

/-- What is on disk after a run: the state the run wrote, or, when the run
raised before writing, the pre-run persisted state. -/
def persistedAfter (result : Except String (Bool × AlertState))
    (pre : AlertState) : AlertState :=
  match result with
  | Except.ok (_, s) => s
  | Except.error _ => pre

/-! ## The persisted state file (`load_state`, `save_state`, `main`) -/

/-- The fragment of JSON the state file uses. -/
inductive Json where
  | null : Json
  | str : String → Json
  | arr : List Json → Json
  | obj : List (String × Json) → Json

/-- The keys of a JSON object, in order. -/
def objKeys (j : Json) : List String :=
  match j with
  | Json.obj fields => fields.map Prod.fst
  | _ => []

/-- The document `json.dump` writes in `save_state` for the dict `main`
builds: key `"last_sent_day"` holding the day string (or `null`) and key
`"last_sent_hits"` holding the list of `{"Ticker": ..., "Status": ...}`
records. -/
def stateToJson (s : AlertState) : Json :=
  Json.obj
    [("last_sent_day",
        match s.last_sent_day with
        | none => Json.null
        | some d => Json.str d),
     ("last_sent_hits",
        Json.arr (s.last_sent_hits.map (fun h =>
          Json.obj [("Ticker", Json.str h.ticker),
                    ("Status", Json.str h.status)])))]

/-- Dict lookup on a JSON object. -/
def lookupField (j : Json) (k : String) : Option Json :=
  match j with
  | Json.obj fields => (fields.find? (fun f => f.1 == k)).map Prod.snd
  | _ => none

/-- How `main` reads `last_sent_day` back from a loaded state
(`state.get("last_sent_day")`). -/
def jsonToDay (j : Json) : Option String :=
  match lookupField j "last_sent_day" with
  | some (Json.str d) => some d
  | _ => none

/-- How `main` reads the recorded hits back from a loaded state
(`state.get("last_sent_hits", [])`, each record giving its `"Ticker"` and
`"Status"`). -/
def jsonToHits (j : Json) : List Hit :=
  match lookupField j "last_sent_hits" with
  | some (Json.arr xs) =>
    xs.filterMap (fun x =>
      match lookupField x "Ticker", lookupField x "Status" with
      | some (Json.str t), some (Json.str st) => some ⟨t, st⟩
      | _, _ => none)
  | _ => []

/-! ## Orchestrator (`main`): per-ticker records and rendering -/

/-- One row of the zones CSV after `load_zones`. -/
structure ZoneRow where
  ticker : String
  name : String
  zone_low : ℚ
  zone_high : ℚ
deriving DecidableEq, Repr

/-- One record of the result frame `main` builds for a zone row. -/
structure RecordRow where
  ticker : String
  name : String
  zone_low : ℚ
  zone_high : ℚ
  last_price : Option ℚ
  status : String
  close7 : Option ℚ
  close30 : Option ℚ
  close90 : Option ℚ
  chg7 : Option ℚ
  chg30 : Option ℚ
  chg90 : Option ℚ
deriving DecidableEq, Repr

/-- The loop body of `main` (lines 220-251) for one zone row, with the price
and close-series fetches abstracted into the functions `price` and
`closes`. -/
def buildRecord (near_pct : ℚ) (todayD : ℤ) (price : Option ℚ)
    (closes : Option (List (ℤ × ℚ))) (z : ZoneRow) : RecordRow :=
  let c7 := match closes with
    | some cs => closest_close_before todayD cs 7
    | none => none
  let c30 := match closes with
    | some cs => closest_close_before todayD cs 30
    | none => none
  let c90 := match closes with
    | some cs => closest_close_before todayD cs 90
    | none => none
  { ticker := z.ticker, name := z.name,
    zone_low := z.zone_low, zone_high := z.zone_high,
    last_price := price,
    status := classify price z.zone_low z.zone_high near_pct,
    close7 := c7, close30 := c30, close90 := c90,
    chg7 := pct_change price c7, chg30 := pct_change price c30,
    chg90 := pct_change price c90 }

/-- The full result frame `main` builds. -/
def buildRecords (near_pct : ℚ) (todayD : ℤ) (price : String → Option ℚ)
    (closes : String → Option (List (ℤ × ℚ))) (zones : List ZoneRow) :
    List RecordRow :=
  zones.map (fun z => buildRecord near_pct todayD (price z.ticker) (closes z.ticker) z)

/-- Model of `hits` in `main`: the records with status IN_ZONE or NEAR, reduced to
their ticker and status (the fields the alert logic consumes). -/
def hitsOf (records : List RecordRow) : List Hit :=
  (records.filter (fun r => r.status == "IN_ZONE" || r.status == "NEAR")).map
    (fun r => ⟨r.ticker, r.status⟩)

/-- The control flow of `main` from the zones check on (lines 214-281): with
an empty zone list it returns before rendering; otherwise it renders the
full result frame (first component: the frame `render` was called with) and
runs the alert tail. -/
def mainRun (pushResult : Except String Unit)
    (save : AlertState → Except String AlertState)
    (near_pct : ℚ) (todayD : ℤ) (price : String → Option ℚ)
    (closes : String → Option (List (ℤ × ℚ))) (zones : List ZoneRow)
    (state : AlertState) (today : String) :
    Option (List RecordRow) × Except String (Bool × AlertState) :=
  if zones.isEmpty then (none, Except.ok (false, state))
  else
    let records := buildRecords near_pct todayD price closes zones
    (some records, mainTail pushResult save (hitsOf records) state today)

/-! ## Theorems -/

lemma classify_some (p lo hi near_pct : ℚ) :
    classify (some p) lo hi near_pct =
      if lo ≤ p ∧ p ≤ hi then "IN_ZONE"
      else if p > hi ∧ p ≤ hi * (1 + near_pct / 100) then "NEAR"
      else if p < lo ∧ p ≥ lo * (1 - near_pct / 100) then "NEAR"
      else "—" := rfl

/-- Claim C4: for every price `p`, zone bounds `lo ≤ hi` and `near_pct n ≥ 0`,
`classify` returns IN_ZONE exactly when `lo ≤ p ≤ hi` (both boundaries
inclusive); for `p > hi` it returns NEAR iff `p ≤ hi * (1 + n/100)` and NONE
(`"—"`) otherwise; for `p < lo` it returns NEAR iff `p ≥ lo * (1 - n/100)`
and NONE otherwise; and an absent price is classified NONE. -/
theorem classify_matches_spec (lo hi n : ℚ) (hlh : lo ≤ hi) (hn : 0 ≤ n) :
    (∀ p : ℚ, classify (some p) lo hi n = "IN_ZONE" ↔ lo ≤ p ∧ p ≤ hi) ∧
    (∀ p : ℚ, hi < p →
      (classify (some p) lo hi n = "NEAR" ↔ p ≤ hi * (1 + n / 100)) ∧
      (classify (some p) lo hi n = "—" ↔ ¬ p ≤ hi * (1 + n / 100))) ∧
    (∀ p : ℚ, p < lo →
      (classify (some p) lo hi n = "NEAR" ↔ lo * (1 - n / 100) ≤ p) ∧
      (classify (some p) lo hi n = "—" ↔ ¬ lo * (1 - n / 100) ≤ p)) ∧
    classify none lo hi n = "—" := by
  refine ⟨?_, ?_, ?_, rfl⟩
  · intro p
    rw [classify_some]
    split_ifs with h1 h2 h3
    · exact iff_of_true rfl h1
    · exact iff_of_false (by decide) h1
    · exact iff_of_false (by decide) h1
    · exact iff_of_false (by decide) h1
  · intro p hp
    have h1 : ¬ (lo ≤ p ∧ p ≤ hi) := fun h => absurd h.2 (not_le.mpr hp)
    by_cases hb : p ≤ hi * (1 + n / 100)
    · have hcond : p > hi ∧ p ≤ hi * (1 + n / 100) := ⟨hp, hb⟩
      rw [classify_some, if_neg h1, if_pos hcond]
      exact ⟨iff_of_true rfl hb, iff_of_false (by decide) (not_not_intro hb)⟩
    · have hcond : ¬ (p > hi ∧ p ≤ hi * (1 + n / 100)) := fun h => hb h.2
      have hcond2 : ¬ (p < lo ∧ p ≥ lo * (1 - n / 100)) :=
        fun h => absurd (h.1.trans_le hlh) (not_lt.mpr hp.le)
      rw [classify_some, if_neg h1, if_neg hcond, if_neg hcond2]
      exact ⟨iff_of_false (by decide) hb, iff_of_true rfl hb⟩
  · intro p hp
    have h1 : ¬ (lo ≤ p ∧ p ≤ hi) := fun h => absurd h.1 (not_le.mpr hp)
    have hcond : ¬ (p > hi ∧ p ≤ hi * (1 + n / 100)) :=
      fun h => absurd (hp.trans_le hlh) (not_lt.mpr h.1.le)
    by_cases hb : lo * (1 - n / 100) ≤ p
    · have hcond2 : p < lo ∧ p ≥ lo * (1 - n / 100) := ⟨hp, hb⟩
      rw [classify_some, if_neg h1, if_neg hcond, if_pos hcond2]
      exact ⟨iff_of_true rfl hb, iff_of_false (by decide) (not_not_intro hb)⟩
    · have hcond2 : ¬ (p < lo ∧ p ≥ lo * (1 - n / 100)) := fun h => hb h.2
      rw [classify_some, if_neg h1, if_neg hcond, if_neg hcond2]
      exact ⟨iff_of_false (by decide) hb, iff_of_true rfl hb⟩

/-- Witness for C4 at the zone `[4, 6]`, `near_pct = 5`, price `5`. -/
theorem classify_matches_spec_witness :
    classify (some 5) 4 6 5 = "IN_ZONE" ↔ (4 : ℚ) ≤ 5 ∧ (5 : ℚ) ≤ 6 :=
  (classify_matches_spec 4 6 5 (by norm_num) (by norm_num)).1 5

/-- Claim C5: `pct_change current past` is absent iff `current` is absent,
`past` is absent, or `past` is zero; otherwise it equals
`(current / past - 1) * 100`. -/
theorem pct_change_matches_spec (c r : Option ℚ) :
    (pct_change c r = none ↔ c = none ∨ r = none ∨ r = some 0) ∧
    (∀ x y, c = some x → r = some y → y ≠ 0 →
      pct_change c r = some ((x / y - 1) * 100)) := by
  constructor
  · cases c with
    | none => simp [pct_change]
    | some x =>
      cases r with
      | none => simp [pct_change]
      | some y => by_cases hy : y = 0 <;> simp [pct_change, hy]
  · intro x y hc hr hy
    subst hc; subst hr
    simp [pct_change, hy]

/-- Witness for C5 at `current = 110`, `past = 100`. -/
theorem pct_change_matches_spec_witness :
    pct_change (some 110) (some 100) = some ((110 / 100 - 1) * 100) :=
  (pct_change_matches_spec (some 110) (some 100)).2 110 100 rfl rfl (by norm_num)

lemma foldl_max_mem (c : ℤ) (cs : List ℤ) : cs.foldl max c ∈ c :: cs := by
  induction cs generalizing c with
  | nil => simp
  | cons a l ih =>
    simp only [List.foldl_cons]
    rcases List.mem_cons.mp (ih (max c a)) with h | h
    · rcases max_choice c a with hm | hm
      · exact List.mem_cons.mpr (Or.inl (h.trans hm))
      · exact List.mem_cons.mpr (Or.inr (List.mem_cons.mpr (Or.inl (h.trans hm))))
    · exact List.mem_cons.mpr (Or.inr (List.mem_cons.mpr (Or.inr h)))

lemma le_foldl_max (c : ℤ) (cs : List ℤ) : ∀ x ∈ c :: cs, x ≤ cs.foldl max c := by
  induction cs generalizing c with
  | nil =>
    intro x hx
    rcases List.mem_cons.mp hx with rfl | h
    · exact le_refl x
    · exact absurd h (List.not_mem_nil x)
  | cons a l ih =>
    intro x hx
    simp only [List.foldl_cons]
    rcases List.mem_cons.mp hx with rfl | hx'
    · exact le_trans (le_max_left x a) (ih (max x a) _ (List.mem_cons_self _ _))
    · rcases List.mem_cons.mp hx' with rfl | hxl
      · exact le_trans (le_max_right c x) (ih (max c x) _ (List.mem_cons_self _ _))
      · exact ih (max c a) x (List.mem_cons.mpr (Or.inr hxl))

lemma closest_close_before_eq (today days_ago : ℤ) (closes : List (ℤ × ℚ)) :
    closest_close_before today closes days_ago =
      match (closes.map Prod.fst).filter
          (fun d => decide (d ≤ today - days_ago)) with
      | [] => none
      | c :: cs => (closes.find? (fun p => p.1 == cs.foldl max c)).map Prod.snd := by
  cases closes with
  | nil => rfl
  | cons a l => rfl

/-- Claim C6: the reference-close lookup returns the close at the latest date
in the series that is `≤` the target date (`today - days_ago`), and returns
absent exactly when the series contains no date `≤` the target (in
particular when it is empty). -/
theorem closest_close_matches_spec (today days_ago : ℤ)
    (closes : List (ℤ × ℚ)) :
    (closest_close_before today closes days_ago = none ↔
      ∀ p ∈ closes, ¬ p.1 ≤ today - days_ago) ∧
    (∀ v, closest_close_before today closes days_ago = some v →
      ∃ p ∈ closes, p.2 = v ∧ p.1 ≤ today - days_ago ∧
        ∀ q ∈ closes, q.1 ≤ today - days_ago → q.1 ≤ p.1) := by
  rcases hcand : (closes.map Prod.fst).filter
      (fun d => decide (d ≤ today - days_ago)) with _ | ⟨c, cs⟩
  · have hnone : closest_close_before today closes days_ago = none := by
      rw [closest_close_before_eq, hcand]
    have hall : ∀ p ∈ closes, ¬ p.1 ≤ today - days_ago := by
      intro p hp hle
      have hmem : p.1 ∈ (closes.map Prod.fst).filter
          (fun d => decide (d ≤ today - days_ago)) :=
        List.mem_filter.mpr ⟨List.mem_map_of_mem Prod.fst hp, by simpa using hle⟩
      rw [hcand] at hmem
      exact absurd hmem (List.not_mem_nil _)
    refine ⟨⟨fun _ => hall, fun _ => hnone⟩, ?_⟩
    intro v hv
    rw [hnone] at hv
    exact absurd hv (by simp)
  · set d := cs.foldl max c with hd
    have hdmem : d ∈ (closes.map Prod.fst).filter
        (fun d => decide (d ≤ today - days_ago)) := by
      rw [hcand]; exact foldl_max_mem c cs
    have hdle : d ≤ today - days_ago := by
      have := (List.mem_filter.mp hdmem).2
      simpa using this
    obtain ⟨p0, hp0mem, hp0eq⟩ := List.mem_map.mp (List.mem_filter.mp hdmem).1
    have hfind : ∃ p1, closes.find? (fun p => p.1 == d) = some p1 := by
      rcases hf : closes.find? (fun p => p.1 == d) with _ | p1
      · have := List.find?_eq_none.mp hf p0 hp0mem
        simp [hp0eq] at this
      · exact ⟨p1, hf⟩
    obtain ⟨p1, hp1⟩ := hfind
    have hp1mem : p1 ∈ closes := List.mem_of_find?_eq_some hp1
    have hp1d : p1.1 = d := by
      have := List.find?_some hp1
      simpa using this
    have hres : closest_close_before today closes days_ago = some p1.2 := by
      rw [closest_close_before_eq, hcand]
      dsimp only
      rw [← hd, hp1]
      rfl
    have hmax : ∀ q ∈ closes, q.1 ≤ today - days_ago → q.1 ≤ p1.1 := by
      intro q hq hqle
      have hqmem : q.1 ∈ (closes.map Prod.fst).filter
          (fun d => decide (d ≤ today - days_ago)) :=
        List.mem_filter.mpr ⟨List.mem_map_of_mem Prod.fst hq, by simpa using hqle⟩
      rw [hcand] at hqmem
      rw [hp1d]
      exact le_foldl_max c cs q.1 hqmem
    constructor
    · rw [hres]
      refine ⟨fun h => absurd h (by simp), fun hall => ?_⟩
      exact absurd (hp1d ▸ hdle) (hall p1 hp1mem)
    · intro v hv
      rw [hres] at hv
      obtain rfl : p1.2 = v := Option.some_injective _ hv
      exact ⟨p1, hp1mem, rfl, hp1d ▸ hdle, hmax⟩

/-- Witness for C6: series `{day 2 ↦ 100, day 3 ↦ 102}`, today = day 4,
`days_ago = 0`, whose lookup yields 102 at the maximal date 3. -/
theorem closest_close_matches_spec_witness :
    ∃ p ∈ [((2 : ℤ), (100 : ℚ)), (3, 102)], p.2 = 102 ∧
      p.1 ≤ 4 - 0 ∧
      ∀ q ∈ [((2 : ℤ), (100 : ℚ)), (3, 102)], q.1 ≤ 4 - 0 → q.1 ≤ p.1 :=
  (closest_close_matches_spec 4 0 [(2, 100), (3, 102)]).2 102 (by rfl)

lemma currentHitTickers_ne_empty {hits : List Hit} (h : hits ≠ []) :
    currentHitTickers hits ≠ ∅ := by
  cases hits with
  | nil => exact absurd rfl h
  | cons a l =>
    intro hemp
    have hmem : a.ticker ∈ currentHitTickers (a :: l) := by
      simp [currentHitTickers]
    rw [hemp] at hmem
    exact absurd hmem (Finset.not_mem_empty _)

/-- Claim C1: the notification decision of `main` follows the spec's rules in
order: empty hit set → no send, state unchanged; else same-day cap → no
send, state unchanged; else identical ticker set to the last send → no send,
state unchanged; otherwise send, then `last_sent_day := today` and the
recorded hits replaced by the current hits with their statuses. -/
theorem notify_decision_follows_spec (hits : List Hit) (state : AlertState)
    (today : String) :
    (hits = [] → runAlert hits state today = (false, state)) ∧
    (hits ≠ [] → state.last_sent_day = some today →
      runAlert hits state today = (false, state)) ∧
    (hits ≠ [] → state.last_sent_day ≠ some today →
      currentHitTickers hits = lastHitTickers state →
      runAlert hits state today = (false, state)) ∧
    (hits ≠ [] → state.last_sent_day ≠ some today →
      currentHitTickers hits ≠ lastHitTickers state →
      runAlert hits state today =
        (true, { last_sent_day := some today, last_sent_hits := hits })) := by
  have hempty : hits.isEmpty = true ↔ hits = [] := List.isEmpty_iff
  refine ⟨?_, ?_, ?_, ?_⟩
  · intro h
    subst h
    simp [runAlert, should_notify]
  · intro h hday
    have hne : hits.isEmpty = false := by
      rcases hits with _ | ⟨a, l⟩
      · exact absurd rfl h
      · rfl
    simp [runAlert, should_notify, hne, hday]
  · intro h hday hset
    have hne : hits.isEmpty = false := by
      rcases hits with _ | ⟨a, l⟩
      · exact absurd rfl h
      · rfl
    have hnonempty := currentHitTickers_ne_empty h
    simp [runAlert, should_notify, hne, hday, hset, hnonempty]
    exact hset ▸ hnonempty
  · intro h hday hset
    have hne : hits.isEmpty = false := by
      rcases hits with _ | ⟨a, l⟩
      · exact absurd rfl h
      · rfl
    simp [runAlert, should_notify, hne, hday, hset, record_sent]

/-- Witness for C1: a first-ever run with one IN_ZONE hit sends and records
today and the hit. -/
theorem notify_decision_follows_spec_witness :
    runAlert [⟨"AAPL", "IN_ZONE"⟩] ⟨none, []⟩ "2025-10-12" =
      (true, ⟨some "2025-10-12", [⟨"AAPL", "IN_ZONE"⟩]⟩) :=
  (notify_decision_follows_spec [⟨"AAPL", "IN_ZONE"⟩] ⟨none, []⟩
      "2025-10-12").2.2.2 (by decide) (by decide) (by decide)

lemma runAlert_capped {state : AlertState} {today : String}
    (h : state.last_sent_day = some today) (hits : List Hit) :
    runAlert hits state today = (false, state) := by
  have hsn : should_notify hits state today = false := by
    unfold should_notify
    rw [if_pos h]
    exact ite_self false
  simp [runAlert, hsn]

lemma countSends_capped {state : AlertState} {today : String}
    (h : state.last_sent_day = some today) :
    ∀ runs : List (List Hit), countSends today state runs = 0 := by
  intro runs
  induction runs with
  | nil => rfl
  | cons hs rest ih =>
    simp [countSends, runAlert_capped h]
    exact ih

lemma runAlert_sent_day {hits : List Hit} {state : AlertState} {today : String}
    (h : (runAlert hits state today).1 = true) :
    (runAlert hits state today).2.last_sent_day = some today := by
  unfold runAlert at *
  by_cases hs : should_notify hits state today
  · simp [hs, record_sent]
  · simp [hs] at h

/-- Claim C2: in every same-day sequence of runs at most one notification is
sent; a send stamps `last_sent_day` with today, and a run whose state already
has `last_sent_day = today` sends nothing and leaves the state unchanged,
whatever the hit set. -/
theorem at_most_one_send_per_day (today : String) (state : AlertState)
    (runs : List (List Hit)) :
    countSends today state runs ≤ 1 ∧
    (∀ hits, (runAlert hits state today).1 = true →
      (runAlert hits state today).2.last_sent_day = some today) ∧
    (state.last_sent_day = some today →
      ∀ hits, runAlert hits state today = (false, state)) := by
  refine ⟨?_, fun hits h => runAlert_sent_day h,
    fun h hits => runAlert_capped h hits⟩
  induction runs generalizing state with
  | nil => simp [countSends]
  | cons hs rest ih =>
    by_cases hsent : (runAlert hs state today).1 = true
    · have hday := runAlert_sent_day hsent
      have hzero : countSends today (runAlert hs state today).2 rest = 0 :=
        countSends_capped hday rest
      simp [countSends, hsent, hzero]
    · have hres : runAlert hs state today = (false, state) := by
        unfold runAlert at *
        by_cases h : should_notify hs state today
        · simp [h] at hsent
        · simp [h]
      simp only [countSends, hres]
      simpa using ih state

/-- Witness for C2: a state already stamped with today skips and is left
unchanged. -/
theorem at_most_one_send_per_day_witness :
    runAlert [⟨"AAPL", "IN_ZONE"⟩] ⟨some "2025-10-12", []⟩ "2025-10-12" =
      (false, ⟨some "2025-10-12", []⟩) :=
  (at_most_one_send_per_day "2025-10-12" ⟨some "2025-10-12", []⟩ []).2.2 rfl
    [⟨"AAPL", "IN_ZONE"⟩]

/-- Claim C3: when `push_message` raises, the persisted alert state is left
exactly as it was before the run (`save_state` is never reached), and the
error propagates out of `main`. -/
theorem push_failure_leaves_state (e : String)
    (save : AlertState → Except String AlertState)
    (hits : List Hit) (state : AlertState) (today : String) :
    persistedAfter (mainTail (Except.error e) save hits state today) state =
      state ∧
    (should_notify hits state today = true →
      mainTail (Except.error e) save hits state today = Except.error e) := by
  unfold mainTail persistedAfter
  by_cases h : should_notify hits state today <;> simp [h]

/-- Witness for C3: a run that decides to notify but whose HTTP POST is
rejected propagates the transport error; `push_message` with valid
credentials and a failing POST is exactly such an error. -/
theorem push_failure_leaves_state_witness :
    push_message (some "tok") (some "uid") false = Except.error "HTTPError" ∧
    mainTail (Except.error "HTTPError") Except.ok [⟨"AAPL", "IN_ZONE"⟩]
        ⟨none, []⟩ "2025-10-12" = Except.error "HTTPError" :=
  ⟨rfl,
    (push_failure_leaves_state "HTTPError" Except.ok [⟨"AAPL", "IN_ZONE"⟩]
        ⟨none, []⟩ "2025-10-12").2 (by decide)⟩

/-- Counterexample to claim C9: a run with the access token unset that has no
hits completes without any error, so missing notifier configuration is not a
startup-time failure. -/
theorem push_config_startup_counterexample :
    push_message none (some "uid") true =
      Except.error "Missing env: LINE_CHANNEL_ACCESS_TOKEN" ∧
    mainTail (push_message none (some "uid") true) Except.ok []
        ⟨none, []⟩ "2025-10-12" =
      Except.ok (false, ⟨none, []⟩) :=
  ⟨rfl, rfl⟩

/-- Claim C9 as amended: the notifier configuration is checked inside
`push_message`, at the moment a notification is attempted: a missing access
token (then a missing recipient id) raises with the cause stated, and a run
that decides to notify with the token unset fails with that message — but a
run that sends nothing succeeds even with the configuration missing. -/
theorem push_config_checked_at_send (token to_id : Option String)
    (httpOk : Bool) (save : AlertState → Except String AlertState)
    (hits : List Hit) (state : AlertState) (today : String) :
    (falsy token = true →
      push_message token to_id httpOk =
        Except.error "Missing env: LINE_CHANNEL_ACCESS_TOKEN") ∧
    (falsy token = false → falsy to_id = true →
      push_message token to_id httpOk =
        Except.error "Missing env: LINE_TO_ID") ∧
    (falsy token = true → should_notify hits state today = true →
      mainTail (push_message token to_id httpOk) save hits state today =
        Except.error "Missing env: LINE_CHANNEL_ACCESS_TOKEN") ∧
    (hits = [] →
      mainTail (push_message token to_id httpOk) save hits state today =
        Except.ok (false, state)) := by
  refine ⟨?_, ?_, ?_, ?_⟩
  · intro ht
    simp [push_message, ht]
  · intro ht hu
    simp [push_message, ht, hu]
  · intro ht hsn
    simp [mainTail, hsn, push_message, ht]
  · intro h
    subst h
    have hsn : should_notify [] state today = false := rfl
    simp [mainTail, hsn]

/-- Witness for C9 (amended): token unset, one hit, fresh state — the run
fails with the missing-token message. -/
theorem push_config_checked_at_send_witness :
    mainTail (push_message none (some "uid") true) Except.ok
        [⟨"AAPL", "IN_ZONE"⟩] ⟨none, []⟩ "2025-10-12" =
      Except.error "Missing env: LINE_CHANNEL_ACCESS_TOKEN" :=
  (push_config_checked_at_send none (some "uid") true Except.ok
      [⟨"AAPL", "IN_ZONE"⟩] ⟨none, []⟩ "2025-10-12").2.2.1 rfl (by decide)

/-- Claim C10: `save_state` on a path with no directory component raises
(`os.makedirs("")` fails) instead of writing, so a run that already pushed
its notification then fails before recording the send. -/
theorem save_state_requires_directory (path : String) (s : AlertState)
    (hits : List Hit) (state : AlertState) (today : String)
    (hdir : osDirname path = "") :
    save_state path s = Except.error "FileNotFoundError" ∧
    (should_notify hits state today = true →
      mainTail (Except.ok ()) (save_state path) hits state today =
        Except.error "FileNotFoundError") := by
  constructor
  · simp [save_state, hdir]
  · intro h
    simp [mainTail, h, save_state, hdir]

/-- Witness for C10: the bare filename `state.json` makes the post-send write
fail, after the notification already went out. -/
theorem save_state_requires_directory_witness :
    save_state "state.json" ⟨none, []⟩ = Except.error "FileNotFoundError" ∧
    mainTail (Except.ok ()) (save_state "state.json") [⟨"AAPL", "IN_ZONE"⟩]
        ⟨none, []⟩ "2025-10-12" = Except.error "FileNotFoundError" :=
  ⟨(save_state_requires_directory "state.json" ⟨none, []⟩ [] ⟨none, []⟩ ""
      (by decide)).1,
    (save_state_requires_directory "state.json" ⟨none, []⟩
        [⟨"AAPL", "IN_ZONE"⟩] ⟨none, []⟩ "2025-10-12" (by decide)).2
      (by decide)⟩

lemma hit_records_roundtrip (l : List Hit) :
    (l.map (fun h => Json.obj [("Ticker", Json.str h.ticker),
        ("Status", Json.str h.status)])).filterMap
      (fun x =>
        match lookupField x "Ticker", lookupField x "Status" with
        | some (Json.str t), some (Json.str st) => some ⟨t, st⟩
        | _, _ => none) = l := by
  induction l with
  | nil => rfl
  | cons h l ih =>
    show (⟨h.ticker, h.status⟩ : Hit) ::
        (l.map (fun h => Json.obj [("Ticker", Json.str h.ticker),
            ("Status", Json.str h.status)])).filterMap
          (fun x =>
            match lookupField x "Ticker", lookupField x "Status" with
            | some (Json.str t), some (Json.str st) => some ⟨t, st⟩
            | _, _ => none) = h :: l
    rw [ih]

/-- Counterexample to claim C7: the state document the program writes keys the
hit list as `last_sent_hits` (records keyed `Ticker`/`Status`), not as the
claimed `last_sent_tickers`. -/
theorem state_file_fields_counterexample :
    objKeys (stateToJson ⟨some "2025-10-12", [⟨"AAPL", "IN_ZONE"⟩]⟩) =
      ["last_sent_day", "last_sent_hits"] ∧
    "last_sent_tickers" ∉
      objKeys (stateToJson ⟨some "2025-10-12", [⟨"AAPL", "IN_ZONE"⟩]⟩) := by
  exact ⟨rfl, by decide⟩

/-- Claim C7 as amended: every state the program writes is a JSON object with
exactly the fields `last_sent_day` (a day string or null) and
`last_sent_hits` (a list of `{Ticker, Status}` records), and reading a
written state back recovers the same `last_sent_day` and the same
ticker/status records. -/
theorem state_file_shape_roundtrip (s : AlertState) :
    objKeys (stateToJson s) = ["last_sent_day", "last_sent_hits"] ∧
    jsonToDay (stateToJson s) = s.last_sent_day ∧
    jsonToHits (stateToJson s) = s.last_sent_hits := by
  obtain ⟨d, hits⟩ := s
  refine ⟨rfl, ?_, ?_⟩
  · cases d <;> rfl
  · show (hits.map _).filterMap _ = hits
    exact hit_records_roundtrip hits

/-- Counterexample to claim C8: with an empty zone list `main` returns before
calling the renderer, so the dashboard is not rendered on such runs. -/
theorem render_empty_zones_counterexample :
    (mainRun (Except.ok ()) Except.ok 5 0 (fun _ => none) (fun _ => none) []
        ⟨none, []⟩ "2025-10-12").1 = none := rfl

/-- Claim C8 as amended: on every run whose zone list is non-empty, the
renderer receives the full result frame, whatever the collaborators, the
pre-run state, and hence the notification decision; runs with an empty zone
list return before rendering. -/
theorem render_always_with_full_results (pushResult : Except String Unit)
    (save : AlertState → Except String AlertState) (near_pct : ℚ)
    (todayD : ℤ) (price : String → Option ℚ)
    (closes : String → Option (List (ℤ × ℚ))) (zones : List ZoneRow)
    (state : AlertState) (today : String) (h : zones ≠ []) :
    (mainRun pushResult save near_pct todayD price closes zones state
        today).1 =
      some (buildRecords near_pct todayD price closes zones) := by
  unfold mainRun
  have hne : zones.isEmpty = false := by
    rcases zones with _ | ⟨z, l⟩
    · exact absurd rfl h
    · rfl
  simp [hne]

/-- Witness for C8 (amended): one zone row, no prices, a fresh state — the
renderer still gets the full one-row result frame. -/
theorem render_always_with_full_results_witness :
    (mainRun (Except.ok ()) Except.ok 5 0 (fun _ => none) (fun _ => none)
        [⟨"AAPL", "Apple", 4, 6⟩] ⟨none, []⟩ "2025-10-12").1 =
      some (buildRecords 5 0 (fun _ => none) (fun _ => none)
        [⟨"AAPL", "Apple", 4, 6⟩]) :=
  render_always_with_full_results (Except.ok ()) Except.ok 5 0
    (fun _ => none) (fun _ => none) [⟨"AAPL", "Apple", 4, 6⟩] ⟨none, []⟩
    "2025-10-12" (List.cons_ne_nil _ _)

end StockAlert
